import Mathlib

/-!
Shallow embedding of `src/services/cloud_storage.py` from the
no-code-architects-toolkit repository, together with theorems settling the
frozen claims about its specification.

Modelling conventions:
* Python exceptions are an explicit `PyExc` sum; fallible code returns
  `Except PyExc α`.
* The process environment is restricted to the five variables the module
  reads, each an `Option String` (`none` = unset), mirroring `os.getenv`.
* The external collaborators `upload_to_gcs` / `upload_to_s3` perform network
  writes, so a provider's `upload_file` is embedded as the `HelperCall` value
  it hands to the collaborator; the orchestrator is parametrised by an oracle
  `helper : HelperCall → Except PyExc String` standing for the pair of
  external upload helpers (returning the URL or raising).
* `validate_env_vars` lives in `config.py`, which is not under `src/`; it is
  modelled from the spec where a claim needs its concrete behaviour, and the
  selector is parametrised by an arbitrary validator elsewhere.
* Logging is a pure side effect with no influence on data flow and is not
  modelled.
-/

namespace CloudStorage

/-- The Python exception kinds relevant to this module: `ValueError` (raised
by configuration validation and caught by the selector), `FileNotFoundError`
(raised by the existence-checking provider variant), and any other exception
class, identified by class name and message. -/
inductive PyExc where
  | valueError (msg : String)
  | fileNotFound (msg : String)
  | other (cls : String) (msg : String)
deriving DecidableEq, Repr

/-- Whether an exception is a `ValueError`, i.e. would be caught by the
`except ValueError:` clause in `get_storage_provider`. -/
def PyExc.isValueError : PyExc → Bool
  | .valueError _ => true
  | _ => false

/-- The process environment restricted to the five variables the module reads
(`os.getenv` returns `None` for an unset variable, hence `Option String`). -/
structure Env where
  gcpBucketName : Option String
  s3BucketName : Option String
  s3EndpointUrl : Option String
  s3AccessKey : Option String
  s3SecretKey : Option String
deriving DecidableEq, Repr

/-- Characters strictly after the last `'/'` of the list (the whole list when
no `'/'` occurs). -/
def afterLastSlash (l : List Char) : List Char :=
  l.foldl (fun acc c => if c = '/' then [] else acc ++ [c]) []

/-- `os.path.basename` for POSIX paths: everything after the last `'/'`. -/
def basename (p : String) : String := ⟨afterLastSlash p.data⟩

/-- Python `s.replace(" ", "_")`: every space becomes an underscore, every
other character is untouched. -/
def pyReplaceSpaces (s : String) : String :=
  ⟨s.data.map fun c => if c = ' ' then '_' else c⟩

/-- Python truthiness of an optional string: `None` and `""` are falsy. -/
def pyTruthy : Option String → Bool
  | none => false
  | some s => !s.isEmpty

/-- Line 73 of the source: `sanitized_filename = original_filename.replace(" ", "_")
if original_filename else os.path.basename(file_path)` — note the Python
truthiness test, under which an empty-string override also falls back to the
base name. -/
def sanitized_filename (original_filename : Option String) (file_path : String) :
    String :=
  match original_filename with
  | some s => if s.isEmpty then basename file_path else pyReplaceSpaces s
  | none => basename file_path

/-- The filename computation shared verbatim by both provider variants:
`file_name = original_filename if original_filename else os.path.basename(file_path)`. -/
def effectiveFilename (original_filename : Option String) (file_path : String) :
    String :=
  match original_filename with
  | some s => if s.isEmpty then basename file_path else s
  | none => basename file_path

/-- The invocation of an external upload helper, with the exact arguments the
source passes: `upload_to_gcs(file_path, bucket_name, cloud_path)` and
`upload_to_s3(file_path, bucket_name, cloud_path, endpoint_url, access_key,
secret_key)`. -/
inductive HelperCall where
  | gcs (file_path : String) (bucket_name : Option String) (cloud_path : String)
  | s3 (file_path : String) (bucket_name : Option String) (cloud_path : String)
      (endpoint_url : Option String) (access_key : Option String)
      (secret_key : Option String)
deriving DecidableEq, Repr

/-- `GCPStorageProvider`: holds the bucket name read from the environment at
construction time. -/
structure GCPStorageProvider where
  bucket_name : Option String
deriving DecidableEq, Repr

/-- `GCPStorageProvider.__init__`: `self.bucket_name = os.getenv('GCP_BUCKET_NAME')`. -/
def GCPStorageProvider.init (env : Env) : GCPStorageProvider :=
  ⟨env.gcpBucketName⟩

/-- `GCPStorageProvider.upload_file`: computes the effective filename, joins it
to the destination folder with `/`, and calls `upload_to_gcs`; the embedded
value is the helper call it makes. -/
def GCPStorageProvider.upload_file (self : GCPStorageProvider)
    (file_path destination_folder : String) (original_filename : Option String) :
    HelperCall :=
  let file_name := effectiveFilename original_filename file_path
  let cloud_path := destination_folder ++ "/" ++ file_name
  .gcs file_path self.bucket_name cloud_path

/-- `S3CompatibleProvider`: endpoint, credentials and bucket read from the
environment at construction time. -/
structure S3CompatibleProvider where
  endpoint_url : Option String
  access_key : Option String
  secret_key : Option String
  bucket_name : Option String
deriving DecidableEq, Repr

/-- `S3CompatibleProvider.__init__`: the four `os.getenv` reads. -/
def S3CompatibleProvider.init (env : Env) : S3CompatibleProvider :=
  ⟨env.s3EndpointUrl, env.s3AccessKey, env.s3SecretKey, env.s3BucketName⟩

/-- `S3CompatibleProvider.upload_file` as written in `src/` (lines 40-44): no
existence check, no date segment; computes the effective filename, joins it to
the destination folder, and calls `upload_to_s3`. -/
def S3CompatibleProvider.upload_file (self : S3CompatibleProvider)
    (file_path destination_folder : String) (original_filename : Option String) :
    HelperCall :=
  let file_name := effectiveFilename original_filename file_path
  let cloud_path := destination_folder ++ "/" ++ file_name
  .s3 file_path self.bucket_name cloud_path self.endpoint_url self.access_key
    self.secret_key

/-- The polymorphic provider value returned by the selector. -/
inductive CloudStorageProvider where
  | gcp (p : GCPStorageProvider)
  | s3 (p : S3CompatibleProvider)
deriving DecidableEq, Repr

/-- Dynamic dispatch of `upload_file` over the two concrete providers. -/
def CloudStorageProvider.upload_file :
    CloudStorageProvider → String → String → Option String → HelperCall
  | .gcp p, fp, folder, ofn => p.upload_file fp folder ofn
  | .s3 p, fp, folder, ofn => p.upload_file fp folder ofn

/-- `get_storage_provider` (lines 46-56): try GCP validation and return the GCP
provider; on `ValueError` only, validate S3 and return the S3 provider; any
other exception from GCP validation, and any failure of S3 validation,
propagates. Parametrised by the validator, whose implementation lives outside
`src/`. -/
def get_storage_provider (validate : String → Except PyExc Unit) (env : Env) :
    Except PyExc CloudStorageProvider :=
  match validate "GCP" with
  | .ok _ => .ok (.gcp (GCPStorageProvider.init env))
  | .error e =>
    if e.isValueError then
      match validate "S3" with
      | .ok _ => .ok (.s3 (S3CompatibleProvider.init env))
      | .error e2 => .error e2
    else .error e

/-- Modelled from the spec: `validate_env_vars` is defined in `config.py`,
which is not under `src/`. Per the spec it "fails with a configuration error
if required variables are absent", the GCP-required set being
`GCP_BUCKET_NAME` and the S3-required set being `S3_BUCKET_NAME`,
`S3_ENDPOINT_URL`, `S3_ACCESS_KEY`, `S3_SECRET_KEY`; the configuration error
is the `ValueError` that `get_storage_provider` catches. -/
def validate_env_vars (env : Env) : String → Except PyExc Unit := fun provider =>
  if provider = "GCP" then
    if env.gcpBucketName.isSome then .ok ()
    else .error (.valueError "Missing GCP environment variables")
  else if provider = "S3" then
    if env.s3BucketName.isSome && env.s3EndpointUrl.isSome
        && env.s3AccessKey.isSome && env.s3SecretKey.isSome then .ok ()
    else .error (.valueError "Missing S3 environment variables")
  else .error (.valueError "Unknown provider")

/-- The orchestrator `upload_file` (lines 58-83): select a provider, sanitize
the filename, build `uploads/<category>`, invoke the provider's upload inside
`try`, return the URL; the bare `raise` re-raises any exception unchanged
after logging. Parametrised by the validator and the external-helper oracle. -/
def upload_file (validate : String → Except PyExc Unit)
    (helper : HelperCall → Except PyExc String) (env : Env)
    (file_path category : String) (original_filename : Option String) :
    Except PyExc String :=
  match get_storage_provider validate env with
  | .error e => .error e
  | .ok provider =>
    let sf := sanitized_filename original_filename file_path
    let destination_folder := "uploads/" ++ category
    helper (provider.upload_file file_path destination_folder (some sf))

/-- A wall-clock calendar date, supplied to the date-segmented provider
variant as a parameter (the embedding cannot read the clock). -/
structure UploadDate where
  year : Nat
  month : Nat
  day : Nat
deriving DecidableEq, Repr

/-- Zero-pad a number to two digits, as `%m` / `%d` do. -/
def pad2 (n : Nat) : String :=
  if n < 10 then "0" ++ toString n else toString n

/-- Zero-pad a number to four digits, as `%Y` does for common years. -/
def pad4 (n : Nat) : String :=
  if n < 10 then "000" ++ toString n
  else if n < 100 then "00" ++ toString n
  else if n < 1000 then "0" ++ toString n
  else toString n

/-- The `YYYY/MM/DD` path segment computed from a calendar date. -/
def dateSegment (d : UploadDate) : String :=
  pad4 d.year ++ "/" ++ pad2 d.month ++ "/" ++ pad2 d.day

/-- Modelled from the spec: the second variant of `cloud_storage.py` that the
spec's design notes describe — an S3 `upload_file` that checks local file
existence before uploading and inserts a `YYYY/MM/DD` date segment between
the destination folder and the filename — is not under `src/`. `fileExists`
stands for the local filesystem probe and `today` for the current wall-clock
date; on a missing file it raises `FileNotFoundError` and makes no helper
call (the result carries the helper call only on success). -/
def S3CompatibleProvider.upload_file_checked (self : S3CompatibleProvider)
    (fileExists : String → Bool) (today : UploadDate)
    (file_path destination_folder : String) (original_filename : Option String) :
    Except PyExc HelperCall :=
  if fileExists file_path then
    let file_name := effectiveFilename original_filename file_path
    let cloud_path :=
      destination_folder ++ "/" ++ dateSegment today ++ "/" ++ file_name
    .ok (.s3 file_path self.bucket_name cloud_path self.endpoint_url
      self.access_key self.secret_key)
  else
    .error (.fileNotFound ("File not found: " ++ file_path))

/-- The environment of the S3-only scenario: only the four S3 variables are
set, to bucket `b`, endpoint `u`, access key `a`, secret key `s`. -/
def envS3Only (b u a s : String) : Env :=
  ⟨none, some b, some u, some a, some s⟩

/-- A concrete stand-in for the external upload helpers that always succeeds
with a fixed URL; used to instantiate witnesses. -/
def stubHelper : HelperCall → Except PyExc String :=
  fun _ => .ok "https://storage.example/object"

/-- Claim C1: with no filename override, the orchestrator invokes the selected
provider's `upload_file` with destination folder `uploads/<category>` and
filename equal to the base name of `file_path`; in particular, in an
environment carrying only the S3 variables `b`/`u`/`a`/`s`, uploading
`/tmp/demo.mp3` under category `transcriptions` calls `upload_to_s3` with
cloud path `uploads/transcriptions/demo.mp3`, bucket `b`, endpoint `u`,
access key `a`, secret key `s`, and returns whatever `upload_to_s3` returns. -/
theorem upload_no_override_uses_basename :
    (∀ (validate : String → Except PyExc Unit)
        (helper : HelperCall → Except PyExc String) (env : Env)
        (p : CloudStorageProvider) (file_path category : String),
      get_storage_provider validate env = .ok p →
      upload_file validate helper env file_path category none
        = helper (p.upload_file file_path ("uploads/" ++ category)
            (some (basename file_path)))) ∧
    (∀ (b u a s : String) (helper : HelperCall → Except PyExc String),
      upload_file (validate_env_vars (envS3Only b u a s)) helper
          (envS3Only b u a s) "/tmp/demo.mp3" "transcriptions" none
        = helper (.s3 "/tmp/demo.mp3" (some b) "uploads/transcriptions/demo.mp3"
            (some u) (some a) (some s))) := by
  constructor
  · intro validate helper env p file_path category h
    unfold upload_file
    rw [h]
    rfl
  · intro b u a s helper
    rfl

/-- Witness for C1 at the concrete S3-only scenario, exercising both the
generic routing statement and the scenario statement. -/
theorem upload_no_override_uses_basename_witness :
    upload_file (validate_env_vars (envS3Only "b" "u" "a" "s")) stubHelper
        (envS3Only "b" "u" "a" "s") "/tmp/demo.mp3" "transcriptions" none
      = stubHelper ((CloudStorageProvider.s3
            ⟨some "u", some "a", some "s", some "b"⟩).upload_file "/tmp/demo.mp3"
          ("uploads/" ++ "transcriptions") (some (basename "/tmp/demo.mp3"))) ∧
    upload_file (validate_env_vars (envS3Only "b" "u" "a" "s")) stubHelper
        (envS3Only "b" "u" "a" "s") "/tmp/demo.mp3" "transcriptions" none
      = stubHelper (.s3 "/tmp/demo.mp3" (some "b")
          "uploads/transcriptions/demo.mp3" (some "u") (some "a") (some "s")) :=
  ⟨upload_no_override_uses_basename.1 _ stubHelper _ _ _ _ rfl,
   upload_no_override_uses_basename.2 "b" "u" "a" "s" stubHelper⟩

/-- Counterexample to claim C2 as stated: the empty string is a supplied
`original_filename`, yet Python's truthiness test on line 73 discards it, so
the filename passed to the provider is the base name `a.txt`, not the
space-sanitized override `""`. -/
theorem sanitize_empty_override_counterexample :
    ¬ (sanitized_filename (some "") "/tmp/a.txt" = pyReplaceSpaces "") := by
  decide

/-- Claim C2 amended: for every NONEMPTY supplied `original_filename`, the
sanitized filename passed to the provider is `original_filename` with every
space replaced by an underscore and every other character unchanged,
preserving length and the order of all characters (stated via the exact
character list). -/
theorem sanitize_nonempty_override (s file_path : String)
    (h : s.isEmpty = false) :
    sanitized_filename (some s) file_path = pyReplaceSpaces s ∧
    (sanitized_filename (some s) file_path).data
      = s.data.map (fun c => if c = ' ' then '_' else c) ∧
    (sanitized_filename (some s) file_path).length = s.length := by
  have hs : sanitized_filename (some s) file_path = pyReplaceSpaces s := by
    simp [sanitized_filename, h]
  refine ⟨hs, ?_, ?_⟩
  · rw [hs]
    rfl
  · rw [hs]
    show (s.data.map fun c => if c = ' ' then '_' else c).length = s.data.length
    simp

/-- Witness for the amended C2 at the override `"my file.wav"`. -/
theorem sanitize_nonempty_override_witness :
    sanitized_filename (some "my file.wav") "/tmp/a.wav"
        = pyReplaceSpaces "my file.wav" ∧
    (sanitized_filename (some "my file.wav") "/tmp/a.wav").data
      = "my file.wav".data.map (fun c => if c = ' ' then '_' else c) ∧
    (sanitized_filename (some "my file.wav") "/tmp/a.wav").length
      = "my file.wav".length :=
  sanitize_nonempty_override "my file.wav" "/tmp/a.wav" rfl

/-- Claim C3: whenever GCP validation succeeds, the selector returns the GCP
provider constructed from the environment — the S3 branch is never taken,
whatever the S3 variables hold. -/
theorem selector_prefers_gcp (validate : String → Except PyExc Unit) (env : Env)
    (h : validate "GCP" = .ok ()) :
    get_storage_provider validate env = .ok (.gcp (GCPStorageProvider.init env)) := by
  unfold get_storage_provider
  rw [h]

/-- Witness for C3 in an environment where all five variables, GCP and S3,
are set. -/
theorem selector_prefers_gcp_witness :
    get_storage_provider (fun _ => (.ok () : Except PyExc Unit))
        ⟨some "g", some "b", some "u", some "a", some "s"⟩
      = .ok (.gcp (GCPStorageProvider.init
          ⟨some "g", some "b", some "u", some "a", some "s"⟩)) :=
  selector_prefers_gcp _ _ rfl

/-- Claim C4: when neither GCP nor S3 validation succeeds, the orchestrator
returns the selector's configuration error — the S3 error when the GCP error
was a catchable `ValueError`, otherwise the GCP error itself — and this holds
for EVERY helper oracle, so no upload helper is ever consulted (the source
also performs no file-existence check anywhere on this path). -/
theorem upload_neither_config_errors (validate : String → Except PyExc Unit)
    (helper : HelperCall → Except PyExc String) (env : Env)
    (file_path category : String) (original_filename : Option String)
    (e1 e2 : PyExc) (h1 : validate "GCP" = .error e1)
    (h2 : validate "S3" = .error e2) :
    upload_file validate helper env file_path category original_filename
      = .error (if e1.isValueError then e2 else e1) := by
  unfold upload_file get_storage_provider
  rw [h1]
  cases hb : e1.isValueError <;> simp [hb, h2]

/-- Witness for C4: a validator failing on GCP with a `ValueError` and on S3
with a `ValueError`; the S3 configuration error surfaces unchanged. -/
theorem upload_neither_config_errors_witness :
    upload_file
        (fun provider =>
          if provider = "GCP" then
            (.error (.valueError "Missing GCP environment variables")
              : Except PyExc Unit)
          else .error (.valueError "Missing S3 environment variables"))
        stubHelper ⟨none, none, none, none, none⟩ "/tmp/demo.mp3"
        "transcriptions" none
      = .error (.valueError "Missing S3 environment variables") :=
  upload_neither_config_errors _ stubHelper _ _ _ none
    (.valueError "Missing GCP environment variables")
    (.valueError "Missing S3 environment variables") rfl rfl

/-- Claim C5: once a provider is selected, the orchestrator's result is
exactly the helper's result for the uniquely determined call: an exception
raised by the underlying upload helper propagates to the caller unchanged
(same `PyExc` value, hence same type and message, with no retry and no
translation), and a returned URL is returned unchanged. -/
theorem upload_propagates_helper_result (validate : String → Except PyExc Unit)
    (helper : HelperCall → Except PyExc String) (env : Env)
    (p : CloudStorageProvider) (file_path category : String)
    (original_filename : Option String)
    (h : get_storage_provider validate env = .ok p) :
    (∀ e : PyExc,
      helper (p.upload_file file_path ("uploads/" ++ category)
          (some (sanitized_filename original_filename file_path))) = .error e →
      upload_file validate helper env file_path category original_filename
        = .error e) ∧
    (∀ url : String,
      helper (p.upload_file file_path ("uploads/" ++ category)
          (some (sanitized_filename original_filename file_path))) = .ok url →
      upload_file validate helper env file_path category original_filename
        = .ok url) := by
  constructor
  · intro e he
    unfold upload_file
    rw [h]
    exact he
  · intro url hu
    unfold upload_file
    rw [h]
    exact hu

/-- Witness for C5: with the S3-only environment and a helper that raises a
connection error, the orchestrator surfaces that very error. -/
theorem upload_propagates_helper_result_witness :
    upload_file (validate_env_vars (envS3Only "b" "u" "a" "s"))
        (fun _ => (.error (.other "ConnectionError" "connection refused")
          : Except PyExc String))
        (envS3Only "b" "u" "a" "s") "/tmp/demo.mp3" "transcriptions" none
      = .error (.other "ConnectionError" "connection refused") :=
  (upload_propagates_helper_result (validate_env_vars (envS3Only "b" "u" "a" "s"))
      (fun _ => (.error (.other "ConnectionError" "connection refused")
        : Except PyExc String))
      (envS3Only "b" "u" "a" "s")
      (.s3 ⟨some "u", some "a", some "s", some "b"⟩) "/tmp/demo.mp3"
      "transcriptions" none rfl).1
    (.other "ConnectionError" "connection refused") rfl

/-- Claim C6: the existence-checking S3 variant raises `FileNotFoundError` on
a nonexistent local path, and since the error carries no `HelperCall`, no
network upload helper can be invoked for it. -/
theorem s3_checked_missing_file_raises (self : S3CompatibleProvider)
    (fileExists : String → Bool) (today : UploadDate)
    (file_path destination_folder : String) (original_filename : Option String)
    (h : fileExists file_path = false) :
    S3CompatibleProvider.upload_file_checked self fileExists today file_path
        destination_folder original_filename
      = .error (.fileNotFound ("File not found: " ++ file_path)) := by
  simp [S3CompatibleProvider.upload_file_checked, h]

/-- Witness for C6 at a concrete missing path. -/
theorem s3_checked_missing_file_raises_witness :
    S3CompatibleProvider.upload_file_checked
        ⟨some "u", some "a", some "s", some "b"⟩ (fun _ => false)
        ⟨2026, 10, 12⟩ "/tmp/gone.mp3" "uploads/transcriptions" none
      = .error (.fileNotFound ("File not found: " ++ "/tmp/gone.mp3")) :=
  s3_checked_missing_file_raises _ _ _ _ _ none rfl

/-- Claim C7: the date-segmented variant builds its cloud path with a
`YYYY/MM/DD` segment, computed from the current date, inserted between the
destination folder and the effective filename. -/
theorem s3_checked_inserts_date_segment (self : S3CompatibleProvider)
    (fileExists : String → Bool) (today : UploadDate)
    (file_path destination_folder : String) (original_filename : Option String)
    (h : fileExists file_path = true) :
    S3CompatibleProvider.upload_file_checked self fileExists today file_path
        destination_folder original_filename
      = .ok (.s3 file_path self.bucket_name
          (destination_folder ++ "/" ++ dateSegment today ++ "/"
            ++ effectiveFilename original_filename file_path)
          self.endpoint_url self.access_key self.secret_key) := by
  simp [S3CompatibleProvider.upload_file_checked, h]

/-- Witness for C7 on 2026-10-12: the cloud path is
`uploads/transcriptions/2026/10/12/demo.mp3`. -/
theorem s3_checked_inserts_date_segment_witness :
    S3CompatibleProvider.upload_file_checked
        ⟨some "u", some "a", some "s", some "b"⟩ (fun _ => true)
        ⟨2026, 10, 12⟩ "/tmp/demo.mp3" "uploads/transcriptions" none
      = .ok (.s3 "/tmp/demo.mp3" (some "b")
          "uploads/transcriptions/2026/10/12/demo.mp3" (some "u") (some "a")
          (some "s")) :=
  s3_checked_inserts_date_segment _ _ _ _ _ none rfl

/-- Claim C8: in an environment whose `GCP_BUCKET_NAME` is `g` and whose GCP
validation succeeds, uploading `/tmp/a.wav` under the default category
`transcriptions` with override `"my file.wav"` uses filename `my_file.wav`,
calls `upload_to_gcs` with bucket `g` and cloud path
`uploads/transcriptions/my_file.wav`, and returns whatever the helper
returns. -/
theorem upload_gcp_scenario (validate : String → Except PyExc Unit)
    (helper : HelperCall → Except PyExc String) (env : Env) (g : String)
    (hg : env.gcpBucketName = some g) (hv : validate "GCP" = .ok ()) :
    upload_file validate helper env "/tmp/a.wav" "transcriptions"
        (some "my file.wav")
      = helper (.gcs "/tmp/a.wav" (some g)
          "uploads/transcriptions/my_file.wav") := by
  have h1 : get_storage_provider validate env = .ok (.gcp ⟨some g⟩) := by
    unfold get_storage_provider
    rw [hv]
    simp [GCPStorageProvider.init, hg]
  unfold upload_file
  rw [h1]
  rfl

/-- Witness for C8 with bucket `g` and a stub helper. -/
theorem upload_gcp_scenario_witness :
    upload_file (fun _ => (.ok () : Except PyExc Unit)) stubHelper
        ⟨some "g", none, none, none, none⟩ "/tmp/a.wav" "transcriptions"
        (some "my file.wav")
      = stubHelper (.gcs "/tmp/a.wav" (some "g")
          "uploads/transcriptions/my_file.wav") :=
  upload_gcp_scenario _ stubHelper _ "g" rfl rfl

/-- Claim C9: with no override, the filename used in the cloud path is the
base name of `file_path` taken verbatim — sanitization applies only to a
supplied override, so a base name containing spaces reaches the provider and
the cloud path with its spaces intact. -/
theorem no_override_basename_verbatim :
    (∀ file_path : String,
      sanitized_filename none file_path = basename file_path) ∧
    sanitized_filename none "/tmp/my file.mp3" = "my file.mp3" ∧
    GCPStorageProvider.upload_file ⟨some "g"⟩ "/tmp/my file.mp3"
        "uploads/transcriptions"
        (some (sanitized_filename none "/tmp/my file.mp3"))
      = .gcs "/tmp/my file.mp3" (some "g")
          "uploads/transcriptions/my file.mp3" :=
  ⟨fun _ => rfl, rfl, rfl⟩

/-- Claim C10: when GCP validation fails with anything other than a
`ValueError`, the selector propagates that exception unchanged — the S3
branch is never reached and no provider is constructed, whatever the
validator would say for S3. -/
theorem selector_non_valueerror_propagates
    (validate : String → Except PyExc Unit) (env : Env) (e : PyExc)
    (h1 : validate "GCP" = .error e) (h2 : e.isValueError = false) :
    get_storage_provider validate env = .error e := by
  unfold get_storage_provider
  rw [h1]
  simp [h2]

/-- Witness for C10: a `TypeError` from GCP validation propagates even though
every S3 variable is set and the validator would accept S3. -/
theorem selector_non_valueerror_propagates_witness :
    get_storage_provider
        (fun provider =>
          if provider = "GCP" then
            (.error (.other "TypeError" "boom") : Except PyExc Unit)
          else .ok ())
        ⟨none, some "b", some "u", some "a", some "s"⟩
      = .error (.other "TypeError" "boom") :=
  selector_non_valueerror_propagates _ _ _ rfl rfl

end CloudStorage
